import Mathlib

/-!
Shallow embedding of the Optimal Build Calculator frontend
(src/frontend/src/App.js, src/frontend/src/ResultsDisplay.js and the
DamageHeatmap component), together with theorems settling the claims about
its specification.

Modelling conventions:
- JavaScript numbers are modelled by `JSNum`: an exact rational (`fin`),
  signed infinity (`inf`), or `nan`.  The claims under study are about which
  value flows where, not about IEEE-754 rounding, so exact rationals are the
  right carrier.
- `parseFloat` is modelled by `parseFloatQ`, following the ECMAScript
  StrDecimalLiteral grammar: leading whitespace is skipped, an optional sign
  is read, then either the literal "Infinity" or a decimal significand with
  an optional exponent; the longest valid numeric head of the string is
  converted and trailing garbage is ignored; if no valid numeric head
  exists the result is `nan`.
- The React state object `inputs` is modelled as an association list
  `List (String × String)` in insertion order: a controlled input always
  stores `e.target.value`, a string.  The numeric defaults (K: 1000, ...)
  are represented by their decimal string forms, which are observationally
  identical through rendering and `parseFloat`.
- The object spread `{ ...prev, [name]: value }` updates the value in place
  when the key exists and appends the key otherwise (`handleInputChange`).
- The submission handler is split exactly as the source is: clear both
  result and error state (`clearForSubmit`), build the payload with the
  `isNaN(parseFloat(v)) ? 0 : parseFloat(v)` coercion (`buildPayload`),
  then apply the response (`applyResponse`): on success store
  `response.data`; on a failed HTTP response store
  `err.response.data.error` (which is `undefined`, i.e. `none`, when the
  body has no such field); on a transport failure (no `err.response`) store
  the generic fallback message.
- JSX conditional rendering `{error && ...}` and `{results && ...}` is
  modelled by `displayedError` / `displayedResults` (a string is falsy in
  JavaScript exactly when it is empty).
-/

/-- A JavaScript number as produced by `parseFloat`: not-a-number, a signed
infinity, or a finite value (modelled exactly as a rational). -/
inductive JSNum where
  | nan : JSNum
  | inf (neg : Bool) : JSNum
  | fin (q : ℚ) : JSNum
deriving DecidableEq

/-- ECMAScript WhiteSpace and LineTerminator code points, as trimmed by
`parseFloat` before parsing. -/
def isJsWhitespace (c : Char) : Bool :=
  let n := c.toNat
  n = 9 || n = 10 || n = 11 || n = 12 || n = 13 || n = 32 ||
  n = 160 || n = 5760 || (8192 ≤ n && n ≤ 8202) || n = 8232 ||
  n = 8233 || n = 8239 || n = 8287 || n = 12288 || n = 65279

/-- Drop leading JavaScript whitespace. -/
def skipWs : List Char → List Char
  | [] => []
  | c :: cs => if isJsWhitespace c then skipWs cs else c :: cs

/-- Read an optional sign character; returns whether the value is negated
and the remaining characters. -/
def readSignChars : List Char → Bool × List Char
  | '-' :: cs => (true, cs)
  | '+' :: cs => (false, cs)
  | cs => (false, cs)

/-- ASCII decimal digit test. -/
def isDigitC (c : Char) : Bool := 48 ≤ c.toNat && c.toNat ≤ 57

/-- Split off the longest run of leading decimal digits. -/
def takeDigits : List Char → List Char × List Char
  | [] => ([], [])
  | c :: cs =>
    if isDigitC c then
      let r := takeDigits cs
      (c :: r.1, r.2)
    else ([], c :: cs)

/-- Numeric value of a digit run. -/
def digitsToNat (ds : List Char) : ℕ :=
  ds.foldl (fun a c => 10 * a + (c.toNat - 48)) 0

/-- The discrete parts of a parsed decimal significand: integer part,
fractional part, and the number of fractional digits. -/
structure SigParts where
  intPart : ℕ
  fracPart : ℕ
  fracLen : ℕ
deriving DecidableEq

/-- Parse a decimal significand: `Digits [. Digits]` or `. Digits`; fails if
no digit occurs on either side of the dot. -/
def parseSignificand (cs : List Char) : Option (SigParts × List Char) :=
  let d := takeDigits cs
  if d.1.isEmpty then
    match d.2 with
    | '.' :: r2 =>
      let f := takeDigits r2
      if f.1.isEmpty then none
      else some (⟨0, digitsToNat f.1, f.1.length⟩, f.2)
    | _ => none
  else
    match d.2 with
    | '.' :: r2 =>
      let f := takeDigits r2
      some (⟨digitsToNat d.1, digitsToNat f.1, f.1.length⟩, f.2)
    | r1 => some (⟨digitsToNat d.1, 0, 0⟩, r1)

/-- Parse the tail of an exponent part (after `e`/`E`): optional sign then
digits.  When no digit follows, the exponent is not part of the numeric
literal and the original character list is restored. -/
def parseExpTail (r1 orig : List Char) : (Bool × ℕ) × List Char :=
  let s := readSignChars r1
  let d := takeDigits s.2
  if d.1.isEmpty then ((false, 0), orig) else ((s.1, digitsToNat d.1), d.2)

/-- Parse an optional exponent part `e`/`E` followed by a signed integer;
yields `(false, 0)` and leaves the input untouched when absent or invalid. -/
def parseExponent (cs : List Char) : (Bool × ℕ) × List Char :=
  match cs with
  | 'e' :: r1 => parseExpTail r1 cs
  | 'E' :: r1 => parseExpTail r1 cs
  | _ => ((false, 0), cs)

/-- Exact value of a parsed decimal literal:
`sign * (intPart + fracPart / 10 ^ fracLen) * 10 ^ (± exponent)`. -/
def ratOfParts (neg : Bool) (ip fp fl : ℕ) (eneg : Bool) (e : ℕ) : ℚ :=
  let m : ℚ := (ip : ℚ) + (fp : ℚ) / (10 : ℚ) ^ fl
  let v : ℚ := if eneg then m / (10 : ℚ) ^ e else m * (10 : ℚ) ^ e
  if neg then -v else v

/-- Scan the longest numeric head of a character list (sign, then either
`Infinity` or significand plus optional exponent); returns its value and
the unconsumed rest, or `none` when no numeric head exists. -/
def scanNumber (cs : List Char) : Option (JSNum × List Char) :=
  let s := readSignChars cs
  if s.2.take 8 = "Infinity".toList then some (JSNum.inf s.1, s.2.drop 8)
  else
    match parseSignificand s.2 with
    | none => none
    | some (parts, cs2) =>
      let ex := parseExponent cs2
      some (JSNum.fin (ratOfParts s.1 parts.intPart parts.fracPart
        parts.fracLen ex.1.1 ex.1.2), ex.2)

/-- JavaScript `parseFloat` on a string: skip whitespace, convert the
longest numeric head, `nan` when there is none. -/
def parseFloatQ (s : String) : JSNum :=
  match scanNumber (skipWs s.toList) with
  | some (v, _) => v
  | none => JSNum.nan

/-- A string that parses completely (no trailing garbage) to a finite
number: the "valid numeric string" of the specification. -/
def isFullNumeric (s : String) : Bool :=
  match scanNumber (skipWs s.toList) with
  | some (JSNum.fin _, []) => true
  | _ => false

/-- `dataToSend[key] = isNaN(parseFloat(value)) ? 0 : parseFloat(value)`. -/
def coerceValue (value : String) : JSNum :=
  let parsedValue := parseFloatQ value
  if parsedValue = JSNum.nan then JSNum.fin 0 else parsedValue

/-- The `for (const key in inputs)` loop of `handleSubmit`: the payload has
one coerced numeric field per key of the input mapping, in order. -/
def buildPayload (inputs : List (String × String)) : List (String × JSNum) :=
  inputs.map (fun p => (p.1, coerceValue p.2))

/-- Pointwise update used by the object spread: replace the value at `name`,
keep every other entry. -/
def setKey (name v : String) (p : String × String) : String × String :=
  if p.1 == name then (p.1, v) else p

/-- `setInputs(prev => ({ ...prev, [name]: value }))`: update the entry in
place when the key exists, append the new key otherwise. -/
def handleInputChange (st : List (String × String)) (name value : String) :
    List (String × String) :=
  if st.any (fun p => p.1 == name) then st.map (setKey name value)
  else st ++ [(name, value)]

/-- Value stored under a key of the input mapping. -/
def getField (st : List (String × String)) (name : String) : Option String :=
  (st.find? (fun p => p.1 == name)).map (fun p => p.2)

/-- The initial input mapping `{ K: 1000, I: 10, F: 500, S: 50, CR0: 5,
CD0: 50 }` (numeric defaults written as their decimal strings). -/
def defaultInputs : List (String × String) :=
  [("K", "1000"), ("I", "10"), ("F", "500"), ("S", "50"),
   ("CR0", "5"), ("CD0", "50")]

/-- The 6 recognized parameter names. -/
def recognizedKeys : List String := ["K", "I", "F", "S", "CR0", "CD0"]

/-- The four scalar outputs of a successful response body. -/
structure CalculationResult where
  optimal_x : ℚ
  optimal_y : ℚ
  optimal_z : ℚ
  max_damage : ℚ
deriving DecidableEq

/-- Top-level view state: the input mapping and the `results` / `error`
React state variables. -/
structure AppState where
  inputs : List (String × String)
  results : Option CalculationResult
  error : Option String
deriving DecidableEq

/-- The view state at initialization. -/
def initialState : AppState :=
  { inputs := defaultInputs, results := none, error := none }

/-- How one submission resolves: a 2xx response with data, a non-2xx HTTP
response whose body may or may not carry an `error` field, or a transport
failure with no response at all. -/
inductive SubmitOutcome where
  | success (data : CalculationResult) : SubmitOutcome
  | httpFailure (errField : Option String) : SubmitOutcome
  | transportFailure : SubmitOutcome
deriving DecidableEq

/-- The fallback message of the catch branch. -/
def genericErrorMessage : String := "An unexpected error occurred."

/-- `setError(null); setResults(null);` — both display slots are cleared
before the request is issued. -/
def clearForSubmit (st : AppState) : AppState :=
  { st with results := none, error := none }

/-- Resolution of the request: `setResults(response.data)` on success;
`setError(err.response ? err.response.data.error : "An unexpected error
occurred.")` on failure — when the response body has no `error` field the
stored value is `undefined`, modelled as `none`. -/
def applyResponse (st : AppState) (o : SubmitOutcome) : AppState :=
  match o with
  | SubmitOutcome.success data => { st with results := some data }
  | SubmitOutcome.httpFailure errField => { st with error := errField }
  | SubmitOutcome.transportFailure =>
      { st with error := some genericErrorMessage }

/-- One whole submission: clear both slots, then apply the outcome. -/
def handleSubmit (st : AppState) (o : SubmitOutcome) : AppState :=
  applyResponse (clearForSubmit st) o

/-- `{error && <div className="error-message">{error}</div>}`: the message
is rendered iff the stored string is truthy (present and nonempty). -/
def displayedError (st : AppState) : Option String :=
  match st.error with
  | some m => if m = "" then none else some m
  | none => none

/-- `{results && <ResultsDisplay results={results} />}`. -/
def displayedResults (st : AppState) : Option CalculationResult :=
  st.results

/-- ResultsDisplay.js: `null` when no results, otherwise the four labelled
scalar lines. -/
def ResultsDisplay (results : Option CalculationResult) :
    Option (List (String × ℚ)) :=
  match results with
  | none => none
  | some r => some
      [("Optimal X", r.optimal_x), ("Optimal Y", r.optimal_y),
       ("Optimal Z", r.optimal_z), ("Max Damage", r.max_damage)]

/-- One point of the heatmap dataset. -/
structure HeatmapSample where
  x : ℚ
  y : ℚ
  z : ℚ
  damage : ℚ
deriving DecidableEq

/-- The plotly trace built by DamageHeatmap: `x`/`y` are the axes, `z` is
the color-mapped channel of a heatmap trace, and `customdata` carries the
hover-only auxiliary values. -/
structure HeatmapTrace where
  x : List ℚ
  y : List ℚ
  z : List ℚ
  typ : String
  colorscale : String
  customdata : List (List ℚ)
deriving DecidableEq

/-- DamageHeatmap: `null` when the dataset is absent or empty; otherwise a
single trace with `x = data.map(d => d.x)`, `y = data.map(d => d.y)`,
`z = data.map(d => d.damage)` (the color channel), and
`customdata = data.map(d => [d.z, d.damage])` (hover detail only). -/
def DamageHeatmap (data : Option (List HeatmapSample)) : Option HeatmapTrace :=
  match data with
  | none => none
  | some d =>
    if d.length = 0 then none
    else some
      { x := d.map (fun p => p.x)
        y := d.map (fun p => p.y)
        z := d.map (fun p => p.damage)
        typ := "heatmap"
        colorscale := "Jet"
        customdata := d.map (fun p => [p.z, p.damage]) }

/-- Input states reachable in the running view: the defaults, mutated only
through change events of rendered inputs, whose `name` attributes are keys
of the current mapping (`Object.keys(inputs).map(...)` in InputForm.js). -/
inductive ReachableInputs : List (String × String) → Prop where
  | init : ReachableInputs defaultInputs
  | step : ∀ {st : List (String × String)} (name v : String),
      ReachableInputs st → name ∈ st.map Prod.fst →
      ReachableInputs (handleInputChange st name v)

/-! ### Helper lemmas -/

/-- The coercion leaves a value alone whenever `parseFloat` did not yield
not-a-number. -/
theorem coerceValue_of_ne_nan (v : String) (h : parseFloatQ v ≠ JSNum.nan) :
    coerceValue v = parseFloatQ v := by
  simp [coerceValue, h]

/-- The coercion substitutes 0 exactly when `parseFloat` yields
not-a-number. -/
theorem coerceValue_of_nan (v : String) (h : parseFloatQ v = JSNum.nan) :
    coerceValue v = JSNum.fin 0 := by
  simp [coerceValue, h]

/-- A fully numeric string parses to a finite value. -/
theorem parseFloatQ_of_isFullNumeric (v : String)
    (h : isFullNumeric v = true) : ∃ q, parseFloatQ v = JSNum.fin q := by
  unfold isFullNumeric at h
  split at h
  · next q heq => exact ⟨q, by unfold parseFloatQ; rw [heq]⟩
  · exact absurd h (by simp)

/-- On a fully numeric string the submission coercion is exactly
`parseFloat`. -/
theorem coerceValue_of_isFullNumeric (v : String)
    (h : isFullNumeric v = true) : coerceValue v = parseFloatQ v := by
  obtain ⟨q, hq⟩ := parseFloatQ_of_isFullNumeric v h
  simp [coerceValue, hq]

/-- Key membership and the `any` test used by `handleInputChange` agree. -/
theorem any_key_iff_mem (st : List (String × String)) (name : String) :
    st.any (fun p => p.1 == name) = true ↔ name ∈ st.map Prod.fst := by
  simp [List.any_eq_true, List.mem_map, beq_iff_eq]

/-- `setKey` never changes the key component. -/
theorem setKey_fst (name v : String) (p : String × String) :
    (setKey name v p).1 = p.1 := by
  unfold setKey; split <;> rfl

/-- The in-place update branch preserves the key list. -/
theorem keys_map_setKey (st : List (String × String)) (name v : String) :
    (st.map (setKey name v)).map Prod.fst = st.map Prod.fst := by
  rw [List.map_map]
  exact List.map_congr_left (fun p _ => setKey_fst name v p)

/-- Updating an existing key preserves the key list. -/
theorem keys_handleInputChange (st : List (String × String)) (name v : String)
    (h : name ∈ st.map Prod.fst) :
    (handleInputChange st name v).map Prod.fst = st.map Prod.fst := by
  unfold handleInputChange
  rw [if_pos ((any_key_iff_mem st name).mpr h), keys_map_setKey]

/-- Every reachable input state has exactly the 6 recognized keys. -/
theorem reachable_keys (st : List (String × String))
    (h : ReachableInputs st) : st.map Prod.fst = recognizedKeys := by
  induction h with
  | init => rfl
  | step name v _ hmem ih => rw [keys_handleInputChange _ _ _ hmem, ih]

/-- The payload has the same keys as the input mapping. -/
theorem buildPayload_keys (st : List (String × String)) :
    (buildPayload st).map Prod.fst = st.map Prod.fst := by
  unfold buildPayload
  rw [List.map_map]
  exact List.map_congr_left (fun p _ => rfl)

/-- Looking up the updated key in the in-place update branch. -/
theorem getField_map_setKey_self (st : List (String × String)) (name v : String)
    (h : st.any (fun p => p.1 == name) = true) :
    getField (st.map (setKey name v)) name = some v := by
  induction st with
  | nil => simp at h
  | cons p st ih =>
    cases hp : p.1 == name with
    | true => simp [getField, List.find?, setKey, hp]
    | false =>
      have h' : st.any (fun q => q.1 == name) = true := by
        simpa [List.any_cons, hp] using h
      simpa [getField, List.find?, setKey, hp] using ih h'

/-- Looking up the appended key in the append branch. -/
theorem getField_append_self (st : List (String × String)) (name v : String)
    (h : st.any (fun p => p.1 == name) = false) :
    getField (st ++ [(name, v)]) name = some v := by
  induction st with
  | nil => simp [getField, List.find?]
  | cons p st ih =>
    rw [List.any_cons, Bool.or_eq_false_iff] at h
    simpa [getField, List.find?, h.1] using ih h.2

/-- Looking up a different key in the in-place update branch. -/
theorem getField_map_setKey_other (st : List (String × String))
    (name v k : String) (h : k ≠ name) :
    getField (st.map (setKey name v)) k = getField st k := by
  induction st with
  | nil => rfl
  | cons p st ih =>
    cases hp : p.1 == k with
    | true =>
      have h1 : p.1 = k := by simpa using hp
      have hpn : (p.1 == name) = false := by simpa [h1] using h
      simp [getField, List.find?, setKey, hpn, hp]
    | false =>
      simpa [getField, List.find?, setKey_fst, hp] using ih

/-- Looking up a different key in the append branch. -/
theorem getField_append_other (st : List (String × String))
    (name v k : String) (h : k ≠ name) :
    getField (st ++ [(name, v)]) k = getField st k := by
  induction st with
  | nil =>
    have hnk : (name == k) = false := by simpa using Ne.symm h
    simp [getField, List.find?, hnk]
  | cons p st ih =>
    cases hp : p.1 == k with
    | true => simp [getField, List.find?, hp]
    | false => simpa [getField, List.find?, hp] using ih

/-! ### Claim theorems -/

/-- C1 (counterexample): a failed submission whose HTTP response body has no
parsable `error` field (e.g. a 500 with an unparsable body) does NOT display
the generic fallback message — `err.response.data.error` is `undefined`, so
the stored error is `undefined` and nothing at all is rendered.  The generic
fallback appears only when `err.response` is absent. -/
theorem handleSubmit_no_error_field_counterexample :
    displayedError (handleSubmit initialState (SubmitOutcome.httpFailure none))
      = none ∧
    displayedError (handleSubmit initialState (SubmitOutcome.httpFailure none))
      ≠ some genericErrorMessage := by
  constructor
  · rfl
  · intro hc; cases hc

/-- C1 (amended): on a failed submission with an HTTP response, the
ErrorState is the response body `error` field — `undefined` (nothing
displayed, no fallback) when that field is absent; the generic fallback
message is stored exactly on transport failures with no response.  In all
failure cases no CalculationResult is shown. -/
theorem handleSubmit_error_message (st : AppState) (m : String) :
    (handleSubmit st (SubmitOutcome.httpFailure (some m))).error = some m ∧
    displayedError (handleSubmit st (SubmitOutcome.httpFailure (some m))) =
      (if m = "" then none else some m) ∧
    (handleSubmit st (SubmitOutcome.httpFailure (some m))).results = none ∧
    (handleSubmit st (SubmitOutcome.httpFailure none)).error = none ∧
    displayedError (handleSubmit st (SubmitOutcome.httpFailure none)) = none ∧
    (handleSubmit st (SubmitOutcome.httpFailure none)).results = none ∧
    (handleSubmit st SubmitOutcome.transportFailure).error =
      some genericErrorMessage ∧
    (handleSubmit st SubmitOutcome.transportFailure).results = none :=
  ⟨rfl, rfl, rfl, rfl, rfl, rfl, rfl, rfl⟩

/-- C1 (witness): the amended statement at the initial state with the
specification example message "K must be positive". -/
theorem handleSubmit_error_message_witness :
    (handleSubmit initialState
        (SubmitOutcome.httpFailure (some "K must be positive"))).error =
      some "K must be positive" ∧
    displayedError (handleSubmit initialState
        (SubmitOutcome.httpFailure (some "K must be positive"))) =
      (if "K must be positive" = "" then none else some "K must be positive") ∧
    (handleSubmit initialState
        (SubmitOutcome.httpFailure (some "K must be positive"))).results =
      none ∧
    (handleSubmit initialState (SubmitOutcome.httpFailure none)).error =
      none ∧
    displayedError
        (handleSubmit initialState (SubmitOutcome.httpFailure none)) = none ∧
    (handleSubmit initialState (SubmitOutcome.httpFailure none)).results =
      none ∧
    (handleSubmit initialState SubmitOutcome.transportFailure).error =
      some genericErrorMessage ∧
    (handleSubmit initialState SubmitOutcome.transportFailure).results =
      none :=
  handleSubmit_error_message initialState "K must be positive"

/-- C2: every stored field value on which `parseFloat` yields not-a-number
(the empty string, any non-numeric string) is submitted as 0. -/
theorem buildPayload_unparsable_to_zero (inputs : List (String × String))
    (p : String × String) (hmem : p ∈ inputs)
    (hnan : parseFloatQ p.2 = JSNum.nan) :
    (p.1, JSNum.fin 0) ∈ buildPayload inputs := by
  have h0 : (p.1, coerceValue p.2) ∈ buildPayload inputs :=
    List.mem_map_of_mem _ hmem
  rwa [coerceValue_of_nan p.2 hnan] at h0

/-- C2 (witness): the empty string parses to not-a-number and is submitted
as 0. -/
theorem buildPayload_unparsable_to_zero_witness :
    parseFloatQ "" = JSNum.nan ∧
    ("K", JSNum.fin 0) ∈ buildPayload [("K", "")] :=
  ⟨rfl, buildPayload_unparsable_to_zero [("K", "")] ("K", "")
    (List.mem_singleton.mpr rfl) rfl⟩

/-- C3: when every stored field value is a fully valid numeric string, the
payload carries for each key exactly the `parseFloat` value of that string,
and each such value is a finite number. -/
theorem buildPayload_numeric_exact (inputs : List (String × String))
    (h : ∀ p ∈ inputs, isFullNumeric p.2 = true) :
    buildPayload inputs = inputs.map (fun p => (p.1, parseFloatQ p.2)) ∧
    ∀ p ∈ inputs, ∃ q, parseFloatQ p.2 = JSNum.fin q := by
  constructor
  · exact List.map_congr_left
      (fun p hp => by rw [coerceValue_of_isFullNumeric p.2 (h p hp)])
  · exact fun p hp => parseFloatQ_of_isFullNumeric p.2 (h p hp)

/-- C3 (witness): a concrete all-numeric mapping is submitted with exactly
the parsed values. -/
theorem buildPayload_numeric_exact_witness :
    buildPayload [("K", "7"), ("CR0", "2.5")] =
      [("K", "7"), ("CR0", "2.5")].map (fun p => (p.1, parseFloatQ p.2)) :=
  (buildPayload_numeric_exact [("K", "7"), ("CR0", "2.5")] (by decide)).1

/-- C4 (counterexample): `handleInputChange` is NOT a no-op on an
unrecognized key — the object spread `{ ...prev, [name]: value }` adds the
key to the mapping. -/
theorem handleInputChange_unrecognized_not_noop :
    handleInputChange defaultInputs "Q" "1" ≠ defaultInputs ∧
    getField (handleInputChange defaultInputs "Q" "1") "Q" = some "1" := by
  constructor
  · decide
  · decide

/-- C4 (amended): `handleInputChange` accepts any key name, adding
unrecognized keys to the mapping rather than rejecting them; however, since
the form only fires change events for keys already present in the mapping,
every reachable input state has exactly the 6 recognized keys and the
submitted payload is an object with exactly those 6 fields, in order. -/
theorem payload_reachable_keys (st : List (String × String))
    (h : ReachableInputs st) :
    (buildPayload st).map Prod.fst = recognizedKeys ∧
    st.map Prod.fst = recognizedKeys :=
  ⟨by rw [buildPayload_keys, reachable_keys st h], reachable_keys st h⟩

/-- C4 (witness): after one reachable edit the payload still has exactly the
6 recognized keys. -/
theorem payload_reachable_keys_witness :
    (buildPayload (handleInputChange defaultInputs "K" "123")).map Prod.fst =
      recognizedKeys ∧
    (handleInputChange defaultInputs "K" "123").map Prod.fst =
      recognizedKeys :=
  payload_reachable_keys _
    (ReachableInputs.step "K" "123" ReachableInputs.init (by decide))

/-- C5: a change event stores the raw string unchanged under its key — no
numeric coercion happens at keystroke time, so transient states like "-" or
"" survive as typed. -/
theorem handleInputChange_stores_raw (st : List (String × String))
    (name v : String) :
    getField (handleInputChange st name v) name = some v := by
  unfold handleInputChange
  cases ha : st.any (fun p => p.1 == name) with
  | true => rw [if_pos rfl]; exact getField_map_setKey_self st name v ha
  | false => rw [if_neg (by simp)]; exact getField_append_self st name v ha

/-- C6: after any nonempty sequence of non-overlapping submissions at most
one of CalculationResult and ErrorState is populated, and both are cleared
at the start of each submission, before the request is issued. -/
theorem view_state_exclusive (st : AppState) (o : SubmitOutcome)
    (os : List SubmitOutcome) :
    (((o :: os).foldl handleSubmit st).results = none ∨
      ((o :: os).foldl handleSubmit st).error = none) ∧
    (clearForSubmit st).results = none ∧ (clearForSubmit st).error = none := by
  have step : ∀ (s : AppState) (x : SubmitOutcome),
      (handleSubmit s x).results = none ∨ (handleSubmit s x).error = none := by
    intro s x
    cases x with
    | success data => right; rfl
    | httpFailure errField => left; rfl
    | transportFailure => left; rfl
  have fold : ∀ (l : List SubmitOutcome) (s : AppState),
      (s.results = none ∨ s.error = none) →
      ((l.foldl handleSubmit s).results = none ∨
        (l.foldl handleSubmit s).error = none) := by
    intro l
    induction l with
    | nil => exact fun s hs => hs
    | cons x xs ih => exact fun s _ => ih _ (step s x)
  exact ⟨fold os _ (step st o), rfl, rfl⟩

/-- C7: ResultsDisplay renders nothing without a result, and for any
successful response it renders all four scalars while no ErrorState is
shown. -/
theorem ResultsDisplay_renders :
    ResultsDisplay none = none ∧
    (∀ r : CalculationResult, ResultsDisplay (some r) =
      some [("Optimal X", r.optimal_x), ("Optimal Y", r.optimal_y),
        ("Optimal Z", r.optimal_z), ("Max Damage", r.max_damage)]) ∧
    (∀ (st : AppState) (r : CalculationResult),
      displayedResults (handleSubmit st (SubmitOutcome.success r)) = some r ∧
      displayedError (handleSubmit st (SubmitOutcome.success r)) = none) :=
  ⟨rfl, fun _ => rfl, fun _ _ => ⟨rfl, rfl⟩⟩

/-- C8: the heatmap renders nothing for an absent or empty dataset; for a
nonempty dataset of N samples it produces one trace of exactly N points with
x and y on the axes, damage as the color-mapped `z` channel, and the sample
z values present only in the hover-only `customdata`. -/
theorem DamageHeatmap_series :
    DamageHeatmap none = none ∧
    DamageHeatmap (some []) = none ∧
    (∀ (s : HeatmapSample) (ds : List HeatmapSample),
      DamageHeatmap (some (s :: ds)) = some
        { x := (s :: ds).map (fun p => p.x)
          y := (s :: ds).map (fun p => p.y)
          z := (s :: ds).map (fun p => p.damage)
          typ := "heatmap"
          colorscale := "Jet"
          customdata := (s :: ds).map (fun p => [p.z, p.damage]) }) ∧
    (∀ (d : List HeatmapSample) (t : HeatmapTrace),
      DamageHeatmap (some d) = some t →
      t.x.length = d.length ∧ t.y.length = d.length ∧
      t.z.length = d.length ∧ t.customdata.length = d.length) := by
  refine ⟨rfl, rfl, fun s ds => rfl, fun d t h => ?_⟩
  cases d with
  | nil => simp [DamageHeatmap] at h
  | cons s ds =>
    rw [show DamageHeatmap (some (s :: ds)) = some
      { x := (s :: ds).map (fun p => p.x)
        y := (s :: ds).map (fun p => p.y)
        z := (s :: ds).map (fun p => p.damage)
        typ := "heatmap"
        colorscale := "Jet"
        customdata := (s :: ds).map (fun p => [p.z, p.damage]) } from rfl] at h
    obtain rfl := Option.some_injective _ h.symm
    simp

/-- C8 (witness): one concrete sample produces one trace point with the
expected projections. -/
theorem DamageHeatmap_series_witness :
    DamageHeatmap (some [⟨1, 2, 3, 4⟩]) = some
      { x := [(1 : ℚ)], y := [(2 : ℚ)], z := [(4 : ℚ)], typ := "heatmap",
        colorscale := "Jet", customdata := [[(3 : ℚ), (4 : ℚ)]] } ∧
    (HeatmapTrace.x
        { x := [(1 : ℚ)], y := [(2 : ℚ)], z := [(4 : ℚ)], typ := "heatmap",
          colorscale := "Jet",
          customdata := [[(3 : ℚ), (4 : ℚ)]] }).length =
      [(⟨1, 2, 3, 4⟩ : HeatmapSample)].length :=
  ⟨rfl,
    (DamageHeatmap_series.2.2.2 [⟨1, 2, 3, 4⟩]
      { x := [(1 : ℚ)], y := [(2 : ℚ)], z := [(4 : ℚ)], typ := "heatmap",
        colorscale := "Jet", customdata := [[(3 : ℚ), (4 : ℚ)]] } rfl).1⟩

/-- C9: a change event leaves the stored value of every other key
unchanged. -/
theorem handleInputChange_frame (st : List (String × String))
    (name v k : String) (h : k ≠ name) :
    getField (handleInputChange st name v) k = getField st k := by
  unfold handleInputChange
  cases ha : st.any (fun p => p.1 == name) with
  | true => rw [if_pos rfl]; exact getField_map_setKey_other st name v k h
  | false => rw [if_neg (by simp)]; exact getField_append_other st name v k h

/-- C9 (witness): editing K leaves I untouched. -/
theorem handleInputChange_frame_witness :
    ("I" : String) ≠ "K" ∧
    getField (handleInputChange defaultInputs "K" "7") "I" =
      getField defaultInputs "I" :=
  ⟨by decide, handleInputChange_frame defaultInputs "K" "7" "I" (by decide)⟩

/-- C10: a stored value with a valid numeric head followed by garbage is
submitted as the value of that head ("5abc" becomes 5, not 0); substitution
of 0 happens exactly on the values where `parseFloat` yields
not-a-number. -/
theorem coerceValue_partial_numeric :
    coerceValue "5abc" = JSNum.fin 5 ∧
    (∀ (v : String) (q : ℚ) (rest : List Char),
      scanNumber (skipWs v.toList) = some (JSNum.fin q, rest) →
      coerceValue v = JSNum.fin q) ∧
    (∀ v : String, parseFloatQ v = JSNum.nan → coerceValue v = JSNum.fin 0) := by
  refine ⟨?_, fun v q rest h => ?_, fun v h => coerceValue_of_nan v h⟩
  · rw [show coerceValue "5abc" =
      JSNum.fin (ratOfParts false 5 0 0 false 0) from rfl]
    norm_num [ratOfParts]
  · have hp : parseFloatQ v = JSNum.fin q := by unfold parseFloatQ; rw [h]
    simp [coerceValue, hp]

/-- C10 (witness): the general statements applied at "5abc" and at a fully
non-numeric string. -/
theorem coerceValue_partial_numeric_witness :
    (scanNumber (skipWs ("5abc").toList) =
        some (JSNum.fin (ratOfParts false 5 0 0 false 0), ['a', 'b', 'c']) ∧
      coerceValue "5abc" = JSNum.fin (ratOfParts false 5 0 0 false 0)) ∧
    (parseFloatQ "xyz" = JSNum.nan ∧ coerceValue "xyz" = JSNum.fin 0) :=
  ⟨⟨rfl, coerceValue_partial_numeric.2.1 "5abc"
      (ratOfParts false 5 0 0 false 0) ['a', 'b', 'c'] rfl⟩,
    ⟨rfl, coerceValue_partial_numeric.2.2 "xyz" rfl⟩⟩
